import Mathlib

/-
Shallow embedding of the time-series forecasting core of the repository
(src/ts_functions.py and the parts of src/app.py that consume it).

Modelling conventions:
* pandas timestamps are day numbers (ℕ); 2020-01-01 is day 18262 since 1970-01-01.
* float cells are rationals; NaN is the value `none` of `Option ℚ` (pandas uses
  NaN both for missing and for not-a-number, and `sum`/`round` skip/preserve it).
* Python exceptions are values of `PyErr`; `except ValueError` catches only the
  `valueError` constructor, every other exception propagates.
* the opaque statsmodels numerical routines (AutoReg, arma_order_select_ic,
  ARMA, ExponentialSmoothing) are oracles supplied as parameters: each returns
  either a prediction (a statsmodels `predict(start, end)` result is a Series
  whose index is the slice [start, end] of the data's index) or an exception.
  Everything around the oracles is translated from the source.
-/

namespace TSApp

/-- A pandas float cell: `none` is NaN, `some q` a (rational-modelled) float. -/
abbrev Val := Option ℚ

/-- A date-indexed series: (timestamp, value) pairs in index order. -/
abbrev Series := List (ℕ × Val)

/-- Python exceptions, split by whether `except ValueError` catches them. -/
inductive PyErr where
  | valueError (msg : String)
  | otherError (msg : String)
deriving DecidableEq

/-- Python `int()` of a nonnegative rational (truncation = floor there). -/
def pyInt (q : ℚ) : ℕ := q.num.toNat / q.den

/-- Floor of a rational as an integer (denominators are positive, and
`Int.ediv` rounds toward minus infinity for positive divisors). -/
def rfloor (q : ℚ) : ℤ := Int.ediv q.num q.den

/-- numpy's rint: round half to even, as used by `DataFrame.round`. -/
def npRint (q : ℚ) : ℤ :=
  if q - (rfloor q : ℚ) < 1/2 then rfloor q
  else if (1 : ℚ)/2 < q - (rfloor q : ℚ) then rfloor q + 1
  else if rfloor q % 2 = 0 then rfloor q else rfloor q + 1

/-- Rounding a float to 2 decimal places, as `round(2)` does per cell. -/
def round2 (q : ℚ) : ℚ := (npRint (100 * q) : ℚ) / 100

/-- `round(2)` on a cell: NaN stays NaN. -/
def roundVal : Val → Val := Option.map round2

/-- Sorted union of two timestamp index lists, with fuel for termination;
models `pandas.Index.union` as used when a DataFrame aligns its columns. -/
def unionMergeAux : ℕ → List ℕ → List ℕ → List ℕ
  | 0, _, ys => ys
  | _ + 1, [], ys => ys
  | _ + 1, x :: xs, [] => x :: xs
  | fuel + 1, x :: xs, y :: ys =>
    if x < y then x :: unionMergeAux fuel xs (y :: ys)
    else if y < x then y :: unionMergeAux fuel (x :: xs) ys
    else x :: unionMergeAux fuel xs ys

/-- Sorted union of two timestamp index lists. -/
def unionMerge (xs ys : List ℕ) : List ℕ := unionMergeAux (xs.length + ys.length) xs ys

/-- An aligned prediction table: a row index plus named columns. -/
structure DataFrame where
  index : List ℕ
  cols : List (String × List Val)
deriving DecidableEq

/-- A pandas object appearing as a dict value when the table is assembled:
either a Series or (in the ARMA tier-3 contingency only) a one-column
DataFrame. -/
inductive PdObj where
  | series (entries : List (ℕ × Val))
  | frame (index : List ℕ) (col : String) (values : List Val)
deriving DecidableEq

/-- Whether a dict value is a (2-dimensional) DataFrame. -/
def pdIsFrame : PdObj → Bool
  | .series _ => false
  | .frame _ _ _ => true

/-- The (timestamp, value) entries of a pandas object. -/
def pdEntries : PdObj → List (ℕ × Val)
  | .series es => es
  | .frame idx _ vs => idx.zip vs

/-- Value of an aligned series at a timestamp; absent timestamps become NaN,
as pandas alignment inserts NaN for missing labels. -/
def colVal (entries : List (ℕ × Val)) (t : ℕ) : Val := (entries.lookup t).getD none

/-- `pd.DataFrame({name: value, ...})`: a DataFrame dict value is rejected
("Data must be 1-dimensional", since `np.asarray` of a DataFrame is 2-D);
Series values are aligned on the union of their indexes. -/
def buildFrame (entries : List (String × PdObj)) : Except PyErr DataFrame :=
  if entries.any (fun c => pdIsFrame c.2) then
    .error (.valueError "Data must be 1-dimensional")
  else
    let idx := entries.foldl (fun acc c => unionMerge acc ((pdEntries c.2).map Prod.fst)) []
    .ok { index := idx,
          cols := entries.map (fun c => (c.1, idx.map (fun t => colVal (pdEntries c.2) t))) }

/-- `DataFrame.round(2)`: round every cell, keep index and column names. -/
def roundFrame (df : DataFrame) : DataFrame :=
  { index := df.index, cols := df.cols.map (fun c => (c.1, c.2.map roundVal)) }

/-- `DataFrame.tail(k)`: the last `k` rows (all rows when there are fewer). -/
def dfTail (k : ℕ) (df : DataFrame) : DataFrame :=
  { index := df.index.drop (df.index.length - k),
    cols := df.cols.map (fun c => (c.1, c.2.drop (df.index.length - k))) }

/-- pandas column `sum()` with its default `skipna=True`: NaN cells are
skipped and an all-NaN column sums to 0. -/
def colSum (vs : List Val) : ℚ :=
  vs.foldr (fun v acc => match v with | none => acc | some q => q + acc) 0

/-- Per-column sum rounded to 2 decimals, for one named column. -/
def colSumRounded (c : String × List Val) : ℚ := round2 (colSum c.2)

/-- `df.sum().round(2)` per column, in column order (app.py line 83). -/
def totalsOf (df : DataFrame) : List ℚ := df.cols.map colSumRounded

/-- The opaque statsmodels fitting routines of ts_functions.py lines 42-65,
abstracted as oracles.  A `predict(start, end)` oracle yields the predicted
values over the evaluation index slice, or raises. -/
structure StatOracles where
  autoRegPredict : Series → ℕ → ℕ → Except PyErr (List Val)
  armaOrderSelectIc : Series → Except PyErr (ℕ × ℕ)
  armaFitPredict : Series → ℕ × ℕ → ℕ → ℕ → Except PyErr (List Val)
  expSmoothPredict : Series → ℕ → ℕ → Except PyErr (List Val)

/-- ts_functions.py line 38: `start = index[int(n * (1 - ratio))]`.  The
position is always in range for nonempty data and 0 < ratio ≤ 1. -/
def splitStart (data : Series) ( ratio : ℚ) : ℕ :=
  (data.map Prod.fst).getD (pyInt ((data.length : ℚ) * (1 - ratio))) 0

/-- ts_functions.py line 39: `end = index[-1]`. -/
def lastTs (data : Series) : ℕ := (data.map Prod.fst).getLast?.getD 0

/-- ts_functions.py line 70: `data.loc[start:]` on an increasing index. -/
def evalSlice (data : Series) (startTs : ℕ) : Series :=
  data.filter (fun p => startTs ≤ p.1)

/-- The evaluation range: the timestamps from the split point through the
last observation (the index of every `predict(start, end)` result). -/
def evalRangeIdx (data : Series) ( ratio : ℚ) : List ℕ :=
  (evalSlice data (splitStart data ratio)).map Prod.fst

/-- ts_functions.py line 48: `max(arma_ic.bic_min_order, (1, 1))`.  Python
`max` on tuples compares lexicographically and returns the first argument
on ties. -/
def pyMaxPair (a b : ℕ × ℕ) : ℕ × ℕ :=
  if a.1 < b.1 then b
  else if b.1 < a.1 then a
  else if a.2 < b.2 then b else a

/-- The ARMA order actually used to fit after tier-1 order selection. -/
def enforcedOrder (bicMinOrder : ℕ × ℕ) : ℕ × ℕ := pyMaxPair bicMinOrder (1, 1)

/-- `except ValueError:` — only `valueError` is absorbed, every other
exception propagates (ts_functions.py lines 51 and 55). -/
def catchValueError {α : Type} (x : Except PyErr α) (handler : Except PyErr α) :
    Except PyErr α :=
  match x with
  | .ok a => .ok a
  | .error (.valueError _) => handler
  | .error e => .error e

/-- Tier 1 (lines 44-50): BIC order search, floor the order against (1,1),
fit and predict over [start, end]. -/
def tier1Fit (o : StatOracles) (data : Series) (evalIdx : List ℕ)
    (startTs endTs : ℕ) : Except PyErr PdObj :=
  match o.armaOrderSelectIc data with
  | .error e => .error e
  | .ok bic =>
    match o.armaFitPredict data (enforcedOrder bic) startTs endTs with
    | .error e => .error e
    | .ok vals => .ok (.series (evalIdx.zip vals))

/-- Tier 2 (lines 52-54): a fixed ARMA(1,1) fit and predict. -/
def tier2Fit (o : StatOracles) (data : Series) (evalIdx : List ℕ)
    (startTs endTs : ℕ) : Except PyErr PdObj :=
  match o.armaFitPredict data (1, 1) startTs endTs with
  | .error e => .error e
  | .ok vals => .ok (.series (evalIdx.zip vals))

/-- `pd.date_range("2020-01-01", periods=100)` as day numbers. -/
def placeholderDates : List ℕ := (List.range 100).map (fun i => 18262 + i)

/-- Tier 3 (lines 56-60): the contingency
`pd.DataFrame({"X": [np.nan] * int(n*ratio)}, index=pd.date_range("2020-01-01", periods=100))`.
pandas raises ValueError when the number of values differs from the length
of the supplied index. -/
def contingencyFrame (n : ℕ) ( ratio : ℚ) : Except PyErr PdObj :=
  let vals : List Val := List.replicate (pyInt ((n : ℚ) * ratio)) none
  if vals.length = placeholderDates.length then
    .ok (.frame placeholderDates "X" vals)
  else
    .error (.valueError "Length of values does not match length of index")

/-- The three-tier ARMA fallback chain of lines 44-60: tier 1, on ValueError
tier 2, on ValueError the contingency frame; an exception raised while
building the contingency is not caught by anything. -/
def armaChain (o : StatOracles) (data : Series) (evalIdx : List ℕ)
    (startTs endTs : ℕ) ( ratio : ℚ) : Except PyErr PdObj :=
  catchValueError (tier1Fit o data evalIdx startTs endTs)
    (catchValueError (tier2Fit o data evalIdx startTs endTs)
      (contingencyFrame data.length ratio))

/-- `TimeSeriesPredictions.fit_tsmodels` (lines 31-71): AR and Exponential
Smoothing failures propagate; the ARMA column goes through the fallback
chain; the four columns are assembled in the fixed dict order. -/
def fit_tsmodels (o : StatOracles) (data : Series) ( ratio : ℚ) :
    Except PyErr DataFrame :=
  match o.autoRegPredict data (splitStart data ratio) (lastTs data) with
  | .error e => .error e
  | .ok m1 =>
    match armaChain o data (evalRangeIdx data ratio) (splitStart data ratio)
        (lastTs data) ratio with
    | .error e => .error e
    | .ok model2 =>
      match o.expSmoothPredict data (splitStart data ratio) (lastTs data) with
      | .error e => .error e
      | .ok m3 =>
        buildFrame
          [("Actual Data", PdObj.series (evalSlice data (splitStart data ratio))),
           ("AR", PdObj.series (List.zip (evalRangeIdx data ratio) m1)),
           ("ARMA", model2),
           ("Exponential Smoothing", PdObj.series (List.zip (evalRangeIdx data ratio) m3))]

/-- `TimeSeriesPredictions.__init__` line 28:
`self.results = self.fit_tsmodels(data).round(2)` (default ratio 0.6). -/
def tsPredictionsResults (o : StatOracles) (data : Series) : Except PyErr DataFrame :=
  match fit_tsmodels o data (3/5) with
  | .error e => .error e
  | .ok df => .ok (roundFrame df)

/-- `TimeSeriesPredictions.__init__` line 29: `self.sample = self.results.tail(14)`. -/
def tsPredictionsSample (o : StatOracles) (data : Series) : Except PyErr DataFrame :=
  match tsPredictionsResults o data with
  | .error e => .error e
  | .ok res => .ok (dfTail 14 res)

/-- Whether an `Except` result is a success. -/
def exOk {α : Type} : Except PyErr α → Bool
  | .ok _ => true
  | .error _ => false

/-- The row count of a successful fit, `none` on an exception. -/
def rowCount (x : Except PyErr DataFrame) : Option ℕ :=
  match x with
  | .ok df => some df.index.length
  | .error _ => none

/-- The row index of a successful fit, `none` on an exception. -/
def dfIndexOf (x : Except PyErr DataFrame) : Option (List ℕ) :=
  match x with
  | .ok df => some df.index
  | .error _ => none

/-- The column names of a successful fit, `none` on an exception. -/
def dfColNames (x : Except PyErr DataFrame) : Option (List String) :=
  match x with
  | .ok df => some (df.cols.map Prod.fst)
  | .error _ => none

/-- The matplotlib global drawing state threaded through a diagnostic batch:
how many figures are open, a request clock standing for `datetime.now()`
(each timestamp read ticks it), and the artifacts saved so far in order. -/
structure PlotState where
  openFigures : ℕ
  clock : ℕ
  artifacts : List String
deriving DecidableEq

/-- Whether each chart routine of a batch succeeds; each stands for the
opaque plotting/saving work done after its drawing surface is acquired. -/
structure PlotOracle where
  acfOk : Bool
  lineOk : Bool
  modelOk : String → Bool
  seasonalOk : Bool

/-- The artifact locators returned by `TimeSeriesGraphs.__init__`. -/
structure GraphArtifacts where
  acf_pacf : String
  lineplot : String
  modelfit : List String
  seasonal_decomposition : String
deriving DecidableEq

/-- An artifact name: folder, `str(datetime.now())` (the clock), suffix. -/
def mkName (clock : ℕ) (suffix : String) : String :=
  "static/files/" ++ toString clock ++ suffix

/-- `plt.figure(...)`: acquire one more drawing surface. -/
def openFigure (st : PlotState) : PlotState :=
  { st with openFigures := st.openFigures + 1 }

/-- ts_functions.py lines 83-95: open a figure, draw ACF and PACF (which may
raise), save under a timestamped name and return it. -/
def plot_acf_pacf (o : PlotOracle) (st : PlotState) :
    Except PyErr String × PlotState :=
  let st1 := openFigure st
  if o.acfOk then
    let name := mkName st1.clock "_acf_pacf_plots.png"
    (.ok name, { st1 with clock := st1.clock + 1, artifacts := st1.artifacts ++ [name] })
  else (.error (.otherError "acf pacf rendering failed"), st1)

/-- ts_functions.py lines 97-109: the raw line plot. -/
def plot_line (o : PlotOracle) (st : PlotState) :
    Except PyErr String × PlotState :=
  let st1 := openFigure st
  if o.lineOk then
    let name := mkName st1.clock "_line_plot.png"
    (.ok name, { st1 with clock := st1.clock + 1, artifacts := st1.artifacts ++ [name] })
  else (.error (.otherError "line rendering failed"), st1)

/-- The loop body of `plot_model_fit`: one figure per remaining model column,
a timestamped name per chart, failures propagate out of the loop. -/
def plotModelsGo (o : PlotOracle) : List String → PlotState →
    Except PyErr (List String) × PlotState
  | [], st => (.ok [], st)
  | m :: ms, st =>
    let st1 := openFigure st
    if o.modelOk m then
      let name := mkName st1.clock ("-" ++ m ++ ".png")
      let st2 := { st1 with clock := st1.clock + 1, artifacts := st1.artifacts ++ [name] }
      match plotModelsGo o ms st2 with
      | (.ok names, st3) => (.ok (name :: names), st3)
      | (.error e, st3) => (.error e, st3)
    else (.error (.otherError "model fit rendering failed"), st1)

/-- ts_functions.py lines 111-129: iterate the table's columns with
`'Actual Data'` dropped, in column order. -/
def plot_model_fit (o : PlotOracle) (cols : List String) (st : PlotState) :
    Except PyErr (List String) × PlotState :=
  plotModelsGo o (cols.filter (fun c => c ≠ "Actual Data")) st

/-- ts_functions.py lines 131-141: STL decomposition plot (its `.plot()`
acquires the figure), saved under a timestamped name. -/
def plot_seanonal_decomposition (o : PlotOracle) (st : PlotState) :
    Except PyErr String × PlotState :=
  let st1 := openFigure st
  if o.seasonalOk then
    let name := mkName st1.clock "_seasonal-decomp.png"
    (.ok name, { st1 with clock := st1.clock + 1, artifacts := st1.artifacts ++ [name] })
  else (.error (.otherError "seasonal decomposition rendering failed"), st1)

/-- ts_functions.py lines 143-146: `plt.close("all")`. -/
def terminate (st : PlotState) : PlotState := { st with openFigures := 0 }

/-- `TimeSeriesGraphs.__init__` (lines 75-81): the four chart routines in
order, then `terminate`; an exception from any routine propagates at once,
skipping `terminate` (there is no try/finally in the source). -/
def tsGraphsInit (o : PlotOracle) (cols : List String) (st : PlotState) :
    Except PyErr GraphArtifacts × PlotState :=
  match plot_acf_pacf o st with
  | (.error e, st1) => (.error e, st1)
  | (.ok acf, st1) =>
    match plot_line o st1 with
    | (.error e, st2) => (.error e, st2)
    | (.ok line, st2) =>
      match plot_model_fit o cols st2 with
      | (.error e, st3) => (.error e, st3)
      | (.ok fits, st3) =>
        match plot_seanonal_decomposition o st3 with
        | (.error e, st4) => (.error e, st4)
        | (.ok sd, st4) =>
          (.ok { acf_pacf := acf, lineplot := line, modelfit := fits,
                 seasonal_decomposition := sd }, terminate st4)

/-- What `process_file` (app.py lines 80-98) hands to the template. -/
structure Response where
  results : DataFrame
  sample : DataFrame
  totals : List ℚ
  graphs : GraphArtifacts

/-- app.py lines 80-98: fit the models, derive sample and totals, render the
diagnostic batch with the request's clock, and assemble the response; any
exception propagates and fails the whole request. -/
def processRequest (o : StatOracles) (po : PlotOracle) (clock : ℕ)
    (data : Series) : Except PyErr Response :=
  match tsPredictionsResults o data with
  | .error e => .error e
  | .ok results =>
    match tsGraphsInit po (results.cols.map Prod.fst)
        { openFigures := 0, clock := clock, artifacts := [] } with
    | (.error e, _) => .error e
    | (.ok g, _) =>
      .ok { results := results, sample := dfTail 14 results,
            totals := totalsOf (dfTail 14 results), graphs := g }

/-- The clock-independent part of a response (table, sample, totals). -/
def stripGraphs (r : Except PyErr Response) :
    Except PyErr (DataFrame × DataFrame × List ℚ) :=
  match r with
  | .error e => .error e
  | .ok resp => .ok (resp.results, resp.sample, resp.totals)

/-- A 25-observation daily series with values 1..25. -/
def series25 : Series := (List.range 25).map (fun i => (i, some ((i : ℚ) + 1)))

/-- A 30-observation daily series of linearly increasing integers 1..30. -/
def series30 : Series := (List.range 30).map (fun i => (i, some ((i : ℚ) + 1)))

/-- Oracles for a run where both ARMA tiers raise ValueError while AR and
Exponential Smoothing converge. -/
def failingStatOracles : StatOracles :=
  { autoRegPredict := fun data _ _ => .ok (List.replicate data.length (some 1)),
    armaOrderSelectIc := fun _ => .error (.valueError "stationarity search failed"),
    armaFitPredict := fun _ _ _ _ => .error (.valueError "ARMA failed to converge"),
    expSmoothPredict := fun data _ _ => .ok (List.replicate data.length (some 1)) }

/-- Oracles for a run where every statistical routine converges. -/
def okStatOracles : StatOracles :=
  { autoRegPredict := fun data _ _ => .ok (List.replicate data.length (some 2)),
    armaOrderSelectIc := fun _ => .ok (2, 1),
    armaFitPredict := fun data _ _ _ => .ok (List.replicate data.length (some 3)),
    expSmoothPredict := fun data _ _ => .ok (List.replicate data.length (some 4)) }

/-- The fixed column list of a successful prediction table. -/
def cols4 : List String := ["Actual Data", "AR", "ARMA", "Exponential Smoothing"]

/-- A fresh matplotlib state at the start of a request. -/
def plotStart : PlotState := { openFigures := 0, clock := 0, artifacts := [] }

/-- A plot oracle where every chart succeeds. -/
def okPlotOracle : PlotOracle :=
  { acfOk := true, lineOk := true, modelOk := fun _ => true, seasonalOk := true }

/-- A plot oracle where the line plot raises mid-batch. -/
def badPlotOracle : PlotOracle :=
  { acfOk := true, lineOk := false, modelOk := fun _ => true, seasonalOk := true }

/-- A concrete 14-row, two-column prediction table. -/
def wideDf : DataFrame :=
  { index := List.range 14,
    cols := [("Actual Data", (List.range 14).map (fun i => some ((i : ℚ) + 1))),
             ("AR", (List.range 14).map (fun _ => (none : Val)))] }

/-- Strip an `Except` value to its success/error shape, keeping the error. -/
def exUnit {α : Type} : Except PyErr α → Except PyErr Unit
  | .ok _ => .ok ()
  | .error e => .error e

/-- The success/error shape of the model-fit loop, as a function of the
oracle and the column list alone. -/
def goOutcome (o : PlotOracle) (l : List String) : Except PyErr Unit :=
  if l.all o.modelOk then .ok ()
  else .error (.otherError "model fit rendering failed")

/-- The success/error shape of a whole diagnostic batch, as a function of
the oracle and the column list alone. -/
def batchOutcome (o : PlotOracle) (cols : List String) : Except PyErr Unit :=
  if o.acfOk = false then .error (.otherError "acf pacf rendering failed")
  else if o.lineOk = false then .error (.otherError "line rendering failed")
  else if (cols.filter (fun c => c ≠ "Actual Data")).all o.modelOk = false then
    .error (.otherError "model fit rendering failed")
  else if o.seasonalOk = false then
    .error (.otherError "seasonal decomposition rendering failed")
  else .ok ()

lemma unionMergeAux_nil_left (fuel : ℕ) (ys : List ℕ) :
    unionMergeAux fuel [] ys = ys := by
  cases fuel <;> cases ys <;> rfl

lemma unionMerge_nil_left (ys : List ℕ) : unionMerge [] ys = ys :=
  unionMergeAux_nil_left _ ys

lemma unionMergeAux_absorb : ∀ (fuel : ℕ) (l p : List ℕ), p <+: l →
    l.length + p.length ≤ fuel → unionMergeAux fuel l p = l := by
  intro fuel
  induction fuel with
  | zero =>
    intro l p _ hlen
    have hl : l = [] := List.eq_nil_of_length_eq_zero (by omega)
    have hp : p = [] := List.eq_nil_of_length_eq_zero (by omega)
    subst hl; subst hp; rfl
  | succ fuel ih =>
    intro l p hp hlen
    match p, hp with
    | [], _ =>
      match l with
      | [] => rfl
      | x :: xs => rfl
    | a :: p', ⟨t, ht⟩ =>
      have hl : l = a :: (p' ++ t) := by simpa using ht.symm
      subst hl
      have hstep : unionMergeAux (fuel + 1) (a :: (p' ++ t)) (a :: p')
          = a :: unionMergeAux fuel (p' ++ t) p' := by
        simp [unionMergeAux]
      rw [hstep, ih (p' ++ t) p' ⟨t, rfl⟩ (by simp at hlen ⊢; omega)]

lemma unionMerge_absorb (l p : List ℕ) (hp : p <+: l) : unionMerge l p = l :=
  unionMergeAux_absorb _ l p hp (by omega)

lemma map_fst_zip_front : ∀ (l : List ℕ) (vs : List Val),
    ((List.zip l vs).map Prod.fst) <+: l := by
  intro l
  induction l with
  | nil => intro vs; simp
  | cons x xs ih =>
    intro vs
    cases vs with
    | nil => simp
    | cons v vs' =>
      obtain ⟨t, ht⟩ := ih vs'
      exact ⟨t, by simp [ht]⟩

lemma rfloor_intCast (z : ℤ) : rfloor (z : ℚ) = z := by
  simp only [rfloor, Rat.num_intCast, Rat.den_intCast, Nat.cast_one]
  exact Int.ediv_one z

lemma npRint_intCast (z : ℤ) : npRint (z : ℚ) = z := by
  have h : (z : ℚ) - (rfloor (z : ℚ) : ℚ) = 0 := by rw [rfloor_intCast]; ring
  rw [npRint, h]
  norm_num [rfloor_intCast]

lemma round2_idem (q : ℚ) : round2 (round2 q) = round2 q := by
  unfold round2
  have h : (100 : ℚ) * ((npRint (100 * q) : ℚ) / 100) = (npRint (100 * q) : ℚ) := by
    field_simp
  rw [h, npRint_intCast]

lemma roundVal_idem (v : Val) : roundVal (roundVal v) = roundVal v := by
  cases v <;> simp [roundVal, round2_idem]

lemma catchValueError_ok {α : Type} (x h : Except PyErr α) (v : α)
    (he : catchValueError x h = .ok v) : x = .ok v ∨ h = .ok v := by
  cases x with
  | ok a => exact Or.inl he
  | error e =>
    cases e with
    | valueError m => exact Or.inr he
    | otherError m => exact Except.noConfusion he

lemma tier1Fit_ok (o : StatOracles) (data : Series) (evalIdx : List ℕ)
    (startTs endTs : ℕ) (v : PdObj)
    (h : tier1Fit o data evalIdx startTs endTs = .ok v) :
    ∃ vals, v = PdObj.series (List.zip evalIdx vals) := by
  unfold tier1Fit at h
  split at h
  · exact Except.noConfusion h
  · split at h
    · exact Except.noConfusion h
    · rename_i vals _
      exact ⟨vals, (Except.ok.inj h).symm⟩

lemma tier2Fit_ok (o : StatOracles) (data : Series) (evalIdx : List ℕ)
    (startTs endTs : ℕ) (v : PdObj)
    (h : tier2Fit o data evalIdx startTs endTs = .ok v) :
    ∃ vals, v = PdObj.series (List.zip evalIdx vals) := by
  unfold tier2Fit at h
  split at h
  · exact Except.noConfusion h
  · rename_i vals _
    exact ⟨vals, (Except.ok.inj h).symm⟩

lemma contingencyFrame_ok (n : ℕ) ( ratio : ℚ) (v : PdObj)
    (h : contingencyFrame n ratio = .ok v) :
    v = PdObj.frame placeholderDates "X"
        (List.replicate (pyInt ((n : ℚ) * ratio)) none) := by
  simp only [contingencyFrame] at h
  split at h
  · exact (Except.ok.inj h).symm
  · exact Except.noConfusion h

lemma armaChain_ok (o : StatOracles) (data : Series) (evalIdx : List ℕ)
    (startTs endTs : ℕ) ( ratio : ℚ) (v : PdObj)
    (h : armaChain o data evalIdx startTs endTs ratio = .ok v) :
    (∃ vals, v = PdObj.series (List.zip evalIdx vals)) ∨
    v = PdObj.frame placeholderDates "X"
        (List.replicate (pyInt ((data.length : ℚ) * ratio)) none) := by
  unfold armaChain at h
  rcases catchValueError_ok _ _ _ h with h1 | h1
  · exact Or.inl (tier1Fit_ok _ _ _ _ _ _ h1)
  · rcases catchValueError_ok _ _ _ h1 with h2 | h2
    · exact Or.inl (tier2Fit_ok _ _ _ _ _ _ h2)
    · exact Or.inr (contingencyFrame_ok _ _ _ h2)

lemma buildFrame_four (s0 s1 s3 : List (ℕ × Val)) (v : PdObj) (df : DataFrame)
    (h : buildFrame
        [("Actual Data", PdObj.series s0), ("AR", PdObj.series s1),
         ("ARMA", v), ("Exponential Smoothing", PdObj.series s3)] = .ok df) :
    ∃ s2, v = PdObj.series s2 ∧
      df.index = unionMerge (unionMerge (unionMerge
        (unionMerge [] (s0.map Prod.fst)) (s1.map Prod.fst))
        (s2.map Prod.fst)) (s3.map Prod.fst) ∧
      df.cols.map Prod.fst = cols4 := by
  cases v with
  | frame idx c vs => simp [buildFrame, pdIsFrame] at h
  | series s2 =>
    refine ⟨s2, rfl, ?_⟩
    rw [buildFrame] at h
    simp only [List.any_cons, List.any_nil, pdIsFrame, Bool.or_false, Bool.or_self,
      if_false, Bool.false_or] at h
    have h2 := Except.ok.inj h
    subst h2
    constructor
    · simp [List.foldl, pdEntries]
    · simp [cols4]

lemma fit_ok_structure (o : StatOracles) (data : Series) ( ratio : ℚ)
    (df : DataFrame) (h : fit_tsmodels o data ratio = .ok df) :
    df.index = evalRangeIdx data ratio ∧ df.cols.map Prod.fst = cols4 := by
  unfold fit_tsmodels at h
  split at h
  · exact Except.noConfusion h
  · rename_i m1 hm1
    split at h
    · exact Except.noConfusion h
    · rename_i model2 harma
      split at h
      · exact Except.noConfusion h
      · rename_i m3 hm3
        obtain ⟨s2, hv, hidx, hcols⟩ := buildFrame_four _ _ _ _ _ h
        refine ⟨?_, hcols⟩
        rcases armaChain_ok _ _ _ _ _ _ _ harma with ⟨vals, hv2⟩ | hv2
        · rw [hv2] at hv
          have hs2 : s2 = List.zip (evalRangeIdx data ratio) vals := by
            exact (PdObj.series.inj hv).symm
          subst hs2
          rw [hidx]
          have he : (evalSlice data (splitStart data ratio)).map Prod.fst
              = evalRangeIdx data ratio := rfl
          rw [he, unionMerge_nil_left,
            unionMerge_absorb _ _ (map_fst_zip_front _ m1),
            unionMerge_absorb _ _ (map_fst_zip_front _ vals),
            unionMerge_absorb _ _ (map_fst_zip_front _ m3)]
        · rw [hv2] at hv
          exact PdObj.noConfusion hv

lemma tsPredictionsResults_ok (o : StatOracles) (data : Series) (df : DataFrame)
    (h : tsPredictionsResults o data = .ok df) :
    ∃ df0, fit_tsmodels o data (3/5) = .ok df0 ∧ df = roundFrame df0 := by
  unfold tsPredictionsResults at h
  split at h
  · exact Except.noConfusion h
  · rename_i df0 hfit
    exact ⟨df0, hfit, (Except.ok.inj h).symm⟩

lemma plotModelsGo_ok (o : PlotOracle) : ∀ (l : List String) (st : PlotState)
    (ns : List String) (st' : PlotState), plotModelsGo o l st = (.ok ns, st') →
    st'.openFigures = st.openFigures + l.length ∧
    st'.artifacts = st.artifacts ++ ns ∧ ns.length = l.length := by
  intro l
  induction l with
  | nil =>
    intro st ns st' h
    simp only [plotModelsGo, Prod.mk.injEq] at h
    obtain ⟨h1, h2⟩ := h
    have hns : ns = [] := (Except.ok.inj h1).symm
    subst hns; subst h2
    simp
  | cons m ms ih =>
    intro st ns st' h
    simp only [plotModelsGo] at h
    by_cases hm : o.modelOk m
    · rw [if_pos hm] at h
      split at h
      · rename_i names st3 hrec
        obtain ⟨hns, hst⟩ := Prod.mk.injEq .. |>.mp h
        have hns2 : ns = mkName (openFigure st).clock ("-" ++ m ++ ".png") :: names :=
          (Except.ok.inj hns).symm
        subst hns2; subst hst
        obtain ⟨ho, ha, hl⟩ := ih _ _ _ hrec
        refine ⟨by simp [openFigure] at ho ⊢; omega, ?_, by simp [hl]⟩
        rw [ha]
        simp [openFigure]
      · rename_i e st3 hrec
        obtain ⟨hns, _⟩ := Prod.mk.injEq .. |>.mp h
        exact Except.noConfusion hns
    · rw [if_neg hm] at h
      obtain ⟨hns, _⟩ := Prod.mk.injEq .. |>.mp h
      exact Except.noConfusion hns

lemma plotModelsGo_error (o : PlotOracle) : ∀ (l : List String) (st : PlotState)
    (e : PyErr) (st' : PlotState), plotModelsGo o l st = (.error e, st') →
    st.openFigures < st'.openFigures := by
  intro l
  induction l with
  | nil =>
    intro st e st' h
    simp only [plotModelsGo, Prod.mk.injEq] at h
    exact Except.noConfusion h.1
  | cons m ms ih =>
    intro st e st' h
    simp only [plotModelsGo] at h
    by_cases hm : o.modelOk m
    · rw [if_pos hm] at h
      split at h
      · rename_i names st3 hrec
        obtain ⟨hns, _⟩ := Prod.mk.injEq .. |>.mp h
        exact Except.noConfusion hns
      · rename_i e2 st3 hrec
        obtain ⟨_, hst⟩ := Prod.mk.injEq .. |>.mp h
        subst hst
        have := ih _ _ _ hrec
        simp [openFigure] at this
        omega
    · rw [if_neg hm] at h
      obtain ⟨_, hst⟩ := Prod.mk.injEq .. |>.mp h
      subst hst
      simp [openFigure]

lemma plotModelsGo_okAll (o : PlotOracle) : ∀ (l : List String) (st : PlotState)
    (ns : List String) (st' : PlotState), plotModelsGo o l st = (.ok ns, st') →
    l.all o.modelOk = true := by
  intro l
  induction l with
  | nil => intro st ns st' _; rfl
  | cons m ms ih =>
    intro st ns st' h
    simp only [plotModelsGo] at h
    by_cases hm : o.modelOk m
    · rw [if_pos hm] at h
      split at h
      · rename_i names st3 hrec
        simp [List.all_cons, hm, ih _ _ _ hrec]
      · rename_i e st3 hrec
        obtain ⟨hns, _⟩ := Prod.mk.injEq .. |>.mp h
        exact Except.noConfusion hns
    · rw [if_neg hm] at h
      obtain ⟨hns, _⟩ := Prod.mk.injEq .. |>.mp h
      exact Except.noConfusion hns

lemma plotModelsGo_errAll (o : PlotOracle) : ∀ (l : List String) (st : PlotState)
    (e : PyErr) (st' : PlotState), plotModelsGo o l st = (.error e, st') →
    l.all o.modelOk = false ∧ e = .otherError "model fit rendering failed" := by
  intro l
  induction l with
  | nil =>
    intro st e st' h
    simp only [plotModelsGo, Prod.mk.injEq] at h
    exact Except.noConfusion h.1
  | cons m ms ih =>
    intro st e st' h
    simp only [plotModelsGo] at h
    by_cases hm : o.modelOk m
    · rw [if_pos hm] at h
      split at h
      · rename_i names st3 hrec
        obtain ⟨hns, _⟩ := Prod.mk.injEq .. |>.mp h
        exact Except.noConfusion hns
      · rename_i e2 st3 hrec
        obtain ⟨hns, _⟩ := Prod.mk.injEq .. |>.mp h
        have he : e2 = e := Except.error.inj hns
        subst he
        obtain ⟨h1, h2⟩ := ih _ _ _ hrec
        simp [List.all_cons, h1, h2]
    · rw [if_neg hm] at h
      obtain ⟨hns, _⟩ := Prod.mk.injEq .. |>.mp h
      have he : (PyErr.otherError "model fit rendering failed") = e :=
        Except.error.inj hns
      simp [List.all_cons, hm, he.symm]

lemma plot_acf_pacf_ok (o : PlotOracle) (st : PlotState) (name : String)
    (st1 : PlotState) (h : plot_acf_pacf o st = (.ok name, st1)) :
    o.acfOk = true ∧ st1.openFigures = st.openFigures + 1 ∧
    st1.artifacts = st.artifacts ++ [name] := by
  simp only [plot_acf_pacf] at h
  by_cases hA : o.acfOk
  · rw [if_pos hA] at h
    obtain ⟨hn, hs⟩ := Prod.mk.injEq .. |>.mp h
    have hn2 : mkName (openFigure st).clock "_acf_pacf_plots.png" = name :=
      Except.ok.inj hn
    subst hs
    simp only [openFigure] at hn2
    simp [hA, openFigure, hn2]
  · rw [if_neg hA] at h
    obtain ⟨hn, _⟩ := Prod.mk.injEq .. |>.mp h
    exact Except.noConfusion hn

lemma plot_acf_pacf_error (o : PlotOracle) (st : PlotState) (e : PyErr)
    (st1 : PlotState) (h : plot_acf_pacf o st = (.error e, st1)) :
    o.acfOk = false ∧ e = .otherError "acf pacf rendering failed" ∧
    st1.openFigures = st.openFigures + 1 := by
  simp only [plot_acf_pacf] at h
  by_cases hA : o.acfOk
  · rw [if_pos hA] at h
    obtain ⟨hn, _⟩ := Prod.mk.injEq .. |>.mp h
    exact Except.noConfusion hn
  · rw [if_neg hA] at h
    obtain ⟨hn, hs⟩ := Prod.mk.injEq .. |>.mp h
    subst hs
    simp [hA, openFigure, (Except.error.inj hn).symm]

lemma plot_line_ok (o : PlotOracle) (st : PlotState) (name : String)
    (st1 : PlotState) (h : plot_line o st = (.ok name, st1)) :
    o.lineOk = true ∧ st1.openFigures = st.openFigures + 1 ∧
    st1.artifacts = st.artifacts ++ [name] := by
  simp only [plot_line] at h
  by_cases hL : o.lineOk
  · rw [if_pos hL] at h
    obtain ⟨hn, hs⟩ := Prod.mk.injEq .. |>.mp h
    have hn2 : mkName (openFigure st).clock "_line_plot.png" = name :=
      Except.ok.inj hn
    subst hs
    simp only [openFigure] at hn2
    simp [hL, openFigure, hn2]
  · rw [if_neg hL] at h
    obtain ⟨hn, _⟩ := Prod.mk.injEq .. |>.mp h
    exact Except.noConfusion hn

lemma plot_line_error (o : PlotOracle) (st : PlotState) (e : PyErr)
    (st1 : PlotState) (h : plot_line o st = (.error e, st1)) :
    o.lineOk = false ∧ e = .otherError "line rendering failed" ∧
    st1.openFigures = st.openFigures + 1 := by
  simp only [plot_line] at h
  by_cases hL : o.lineOk
  · rw [if_pos hL] at h
    obtain ⟨hn, _⟩ := Prod.mk.injEq .. |>.mp h
    exact Except.noConfusion hn
  · rw [if_neg hL] at h
    obtain ⟨hn, hs⟩ := Prod.mk.injEq .. |>.mp h
    subst hs
    simp [hL, openFigure, (Except.error.inj hn).symm]

lemma plot_seanonal_ok (o : PlotOracle) (st : PlotState) (name : String)
    (st1 : PlotState) (h : plot_seanonal_decomposition o st = (.ok name, st1)) :
    o.seasonalOk = true ∧ st1.openFigures = st.openFigures + 1 ∧
    st1.artifacts = st.artifacts ++ [name] := by
  simp only [plot_seanonal_decomposition] at h
  by_cases hS : o.seasonalOk
  · rw [if_pos hS] at h
    obtain ⟨hn, hs⟩ := Prod.mk.injEq .. |>.mp h
    have hn2 : mkName (openFigure st).clock "_seasonal-decomp.png" = name :=
      Except.ok.inj hn
    subst hs
    simp only [openFigure] at hn2
    simp [hS, openFigure, hn2]
  · rw [if_neg hS] at h
    obtain ⟨hn, _⟩ := Prod.mk.injEq .. |>.mp h
    exact Except.noConfusion hn

lemma plot_seanonal_error (o : PlotOracle) (st : PlotState) (e : PyErr)
    (st1 : PlotState) (h : plot_seanonal_decomposition o st = (.error e, st1)) :
    o.seasonalOk = false ∧ e = .otherError "seasonal decomposition rendering failed" ∧
    st1.openFigures = st.openFigures + 1 := by
  simp only [plot_seanonal_decomposition] at h
  by_cases hS : o.seasonalOk
  · rw [if_pos hS] at h
    obtain ⟨hn, _⟩ := Prod.mk.injEq .. |>.mp h
    exact Except.noConfusion hn
  · rw [if_neg hS] at h
    obtain ⟨hn, hs⟩ := Prod.mk.injEq .. |>.mp h
    subst hs
    simp [hS, openFigure, (Except.error.inj hn).symm]

lemma tsGraphsInit_cases (o : PlotOracle) (cols : List String) (st : PlotState)
    (p : Except PyErr GraphArtifacts) (s : PlotState)
    (h : tsGraphsInit o cols st = (p, s)) :
    (exUnit p = batchOutcome o cols) ∧
    ((∃ g, p = .ok g) → s.openFigures = 0) ∧
    ((∃ e, p = .error e) → 0 < s.openFigures) := by
  unfold tsGraphsInit at h
  split at h
  · rename_i e st1 h1
    obtain ⟨hp, hs⟩ := Prod.mk.injEq .. |>.mp h
    subst hp; subst hs
    obtain ⟨hA, he, ho⟩ := plot_acf_pacf_error o st e st1 h1
    subst he
    refine ⟨by simp only [exUnit, batchOutcome, hA]; simp, by intro hg; obtain ⟨g, hg⟩ := hg; exact Except.noConfusion hg, by intro _; omega⟩
  · rename_i acf st1 h1
    obtain ⟨hA, ho1, _⟩ := plot_acf_pacf_ok o st acf st1 h1
    split at h
    · rename_i e st2 h2
      obtain ⟨hp, hs⟩ := Prod.mk.injEq .. |>.mp h
      subst hp; subst hs
      obtain ⟨hL, he, ho⟩ := plot_line_error o st1 e st2 h2
      subst he
      refine ⟨by simp only [exUnit, batchOutcome, hA, hL]; simp, by intro hg; obtain ⟨g, hg⟩ := hg; exact Except.noConfusion hg, by intro _; omega⟩
    · rename_i line st2 h2
      obtain ⟨hL, ho2, _⟩ := plot_line_ok o st1 line st2 h2
      split at h
      · rename_i e st3 h3
        obtain ⟨hp, hs⟩ := Prod.mk.injEq .. |>.mp h
        subst hp; subst hs
        obtain ⟨hM, he⟩ := plotModelsGo_errAll o _ _ _ _ h3
        have ho3 := plotModelsGo_error o _ _ _ _ h3
        subst he
        refine ⟨by simp only [exUnit, batchOutcome, hA, hL, hM]; simp, by intro hg; obtain ⟨g, hg⟩ := hg; exact Except.noConfusion hg, by intro _; omega⟩
      · rename_i fits st3 h3
        have hM := plotModelsGo_okAll o _ _ _ _ h3
        obtain ⟨ho3, _, _⟩ := plotModelsGo_ok o _ _ _ _ h3
        split at h
        · rename_i e st4 h4
          obtain ⟨hp, hs⟩ := Prod.mk.injEq .. |>.mp h
          subst hp; subst hs
          obtain ⟨hS, he, ho4⟩ := plot_seanonal_error o st3 e st4 h4
          subst he
          refine ⟨by simp only [exUnit, batchOutcome, hA, hL, hM, hS]; simp, by intro hg; obtain ⟨g, hg⟩ := hg; exact Except.noConfusion hg, by intro _; omega⟩
        · rename_i sd st4 h4
          obtain ⟨hS, _, _⟩ := plot_seanonal_ok o st3 sd st4 h4
          obtain ⟨hp, hs⟩ := Prod.mk.injEq .. |>.mp h
          subst hp; subst hs
          refine ⟨by simp only [exUnit, batchOutcome, hA, hL, hM, hS]; simp, by intro _; simp [terminate], ?_⟩
          intro he
          obtain ⟨e, he⟩ := he
          exact Except.noConfusion he

lemma filter_ne_length (a : String) : ∀ (l : List String), l.count a = 1 →
    (l.filter (fun c => c ≠ a)).length + 1 = l.length := by
  intro l
  induction l with
  | nil => intro h; simp at h
  | cons m ms ih =>
    intro h
    by_cases hm : m = a
    · subst hm
      rw [List.count_cons_self] at h
      have h0 : ms.count m = 0 := by omega
      have hnm : m ∉ ms := List.count_eq_zero.mp h0
      have hf : ms.filter (fun c => c ≠ m) = ms := by
        apply List.filter_eq_self.mpr
        intro x hx
        simp only [decide_eq_true_eq]
        intro hxm
        exact hnm (hxm ▸ hx)
      rw [List.filter_cons, if_neg (by simp), hf]
      simp
    · have hcount : ms.count a = 1 := by
        rw [List.count_cons] at h
        simp [hm] at h
        omega
      have hrec := ih hcount
      rw [List.filter_cons, if_pos (by simp [hm])]
      simp only [List.length_cons]
      omega

unseal Rat.mul Rat.inv Rat.add Rat.sub in
/-- C1: with a 25-observation series and ARMA routines that raise ValueError
in both tier 1 and tier 2, the tier-3 contingency itself raises a ValueError
(15 values against a fixed 100-entry index), and that exception escapes
`fit_tsmodels` — ARMA failures are not always absorbed by the fallback
chain. -/
theorem arma_fallback_chain_raises :
    fit_tsmodels failingStatOracles series25 (3/5)
      = .error (.valueError "Length of values does not match length of index") := by
  rfl

/-- C2: for a series of at least 22 observations on which the fit succeeds,
the rounded prediction table is indexed exactly by the evaluation range and
its columns are Actual Data, AR, ARMA, Exponential Smoothing in that order. -/
theorem prediction_table_shape (o : StatOracles) (data : Series)
    (h22 : 22 ≤ data.length) (hok : exOk (tsPredictionsResults o data) = true) :
    dfIndexOf (tsPredictionsResults o data) = some (evalRangeIdx data (3/5)) ∧
    dfColNames (tsPredictionsResults o data) = some cols4 ∧
    rowCount (tsPredictionsResults o data) = some (evalRangeIdx data (3/5)).length := by
  cases hres : tsPredictionsResults o data with
  | error e => rw [hres] at hok; exact absurd hok (by simp [exOk])
  | ok df =>
    obtain ⟨df0, hfit, hdf⟩ := tsPredictionsResults_ok o data df hres
    obtain ⟨hidx, hcols⟩ := fit_ok_structure o data (3/5) df0 hfit
    subst hdf
    refine ⟨?_, ?_, ?_⟩
    · simp [dfIndexOf, roundFrame, hidx]
    · simp only [dfColNames, roundFrame, List.map_map]
      rw [show (Prod.fst ∘ fun c : String × List Val => (c.1, c.2.map roundVal))
        = Prod.fst from rfl]
      rw [hcols]
    · simp [rowCount, roundFrame, hidx]

unseal Rat.mul Rat.inv Rat.add Rat.sub in
/-- C2 witness: a concrete 30-observation series with converging oracles. -/
theorem prediction_table_shape_witness :
    dfIndexOf (tsPredictionsResults okStatOracles series30)
      = some (evalRangeIdx series30 (3/5)) ∧
    dfColNames (tsPredictionsResults okStatOracles series30) = some cols4 ∧
    rowCount (tsPredictionsResults okStatOracles series30)
      = some (evalRangeIdx series30 (3/5)).length :=
  prediction_table_shape okStatOracles series30 (by decide) (by rfl)

/-- C3 counterexample: when the BIC search returns order (2, 0), the order
used for fitting is (2, 0) itself — its MA component is below 1, so the
claimed componentwise floor of (1,1) does not hold. -/
theorem order_floor_counterexample :
    enforcedOrder (2, 0) = (2, 0) ∧ ¬ 1 ≤ (enforcedOrder (2, 0)).2 := by
  decide

/-- C3 amended: the enforced order is the lexicographic maximum of the
searched order and (1,1): its AR component is always at least 1, and its MA
component is at least 1 whenever the AR component is exactly 1, but a
searched order with AR component at least 2 is used unchanged, so the MA
component can be 0. -/
theorem order_floor_lex (pq : ℕ × ℕ) :
    1 ≤ (enforcedOrder pq).1 ∧
    ((enforcedOrder pq).1 = 1 → 1 ≤ (enforcedOrder pq).2) := by
  obtain ⟨p, q⟩ := pq
  unfold enforcedOrder pyMaxPair
  dsimp only
  split_ifs <;> simp_all <;> omega

/-- C3 witness: the searched order (0, 0) is floored up to (1, 1). -/
theorem order_floor_lex_witness :
    1 ≤ (enforcedOrder (0, 0)).1 ∧ 1 ≤ (enforcedOrder (0, 0)).2 :=
  ⟨(order_floor_lex (0, 0)).1, (order_floor_lex (0, 0)).2 (by decide)⟩

unseal Rat.mul Rat.inv Rat.add Rat.sub in
/-- C4 counterexample: on the 30-observation series 1..30 with converging
oracles, the fit produces 18 rows, not the claimed 12: the evaluation
window starts at position int(30 * 0.4) = 12 and runs to the end. -/
theorem scenario_a_rowcount_counterexample :
    rowCount (tsPredictionsResults okStatOracles series30) = some 18 ∧
    ¬ rowCount (tsPredictionsResults okStatOracles series30) = some 12 := by
  constructor
  · rfl
  · decide

unseal Rat.mul Rat.inv Rat.add Rat.sub in
/-- C4 amended: on the 30-observation series 1..30, any successful fit with
the default ratio produces a table with exactly 18 rows — the evaluation
window covers the last 60 percent of the series. -/
theorem scenario_a_rowcount (o : StatOracles)
    (hok : exOk (tsPredictionsResults o series30) = true) :
    rowCount (tsPredictionsResults o series30) = some 18 := by
  cases hres : tsPredictionsResults o series30 with
  | error e => rw [hres] at hok; exact absurd hok (by simp [exOk])
  | ok df =>
    obtain ⟨df0, hfit, hdf⟩ := tsPredictionsResults_ok o series30 df hres
    obtain ⟨hidx, _⟩ := fit_ok_structure o series30 (3/5) df0 hfit
    subst hdf
    simp only [rowCount, roundFrame, hidx]
    decide

unseal Rat.mul Rat.inv Rat.add Rat.sub in
/-- C4 witness: the 18-row outcome at concrete converging oracles. -/
theorem scenario_a_rowcount_witness :
    rowCount (tsPredictionsResults okStatOracles series30) = some 18 :=
  scenario_a_rowcount okStatOracles (by rfl)

unseal Rat.mul Rat.inv Rat.add Rat.sub in
/-- C5: on a 30-observation series whose ARMA tiers both raise ValueError,
the tier-3 contingency does not construct an all-NaN column: it supplies
int(30 * 0.6) = 18 values for a 100-entry placeholder index, so pandas
raises ValueError and no prediction table is returned at all. -/
theorem contingency_length_mismatch :
    fit_tsmodels failingStatOracles series30 (3/5)
      = .error (.valueError "Length of values does not match length of index")
    ∧ pyInt ((series30.length : ℚ) * (3/5)) = 18
    ∧ placeholderDates.length = 100 := by
  refine ⟨rfl, by decide, by decide⟩

/-- C6 counterexample: when the line plot raises, the batch aborts with two
figures still open — a failed `TimeSeriesGraphs` construction leaks its
drawing surfaces because `terminate` is never reached. -/
theorem figure_leak_on_failure :
    exOk (tsGraphsInit badPlotOracle cols4 plotStart).1 = false ∧
    (tsGraphsInit badPlotOracle cols4 plotStart).2.openFigures = 2 ∧
    ¬ (tsGraphsInit badPlotOracle cols4 plotStart).2.openFigures = 0 := by
  decide

/-- C6 amended: all figures are closed exactly when the batch succeeds —
on success `terminate` closes everything, while on any chart failure the
exception propagates before `terminate` and at least one figure stays
open. -/
theorem figures_closed_iff_success (o : PlotOracle) (cols : List String)
    (st : PlotState) :
    (tsGraphsInit o cols st).2.openFigures = 0 ↔
    exOk (tsGraphsInit o cols st).1 = true := by
  cases hres : tsGraphsInit o cols st with
  | mk p s =>
    obtain ⟨_, hokf, herrf⟩ := tsGraphsInit_cases o cols st p s hres
    cases p with
    | ok g =>
      simp only [exOk]
      exact ⟨fun _ => trivial, fun _ => hokf ⟨g, rfl⟩⟩
    | error e =>
      have hpos := herrf ⟨e, rfl⟩
      simp only [exOk]
      constructor
      · intro h0; omega
      · intro h; exact Bool.noConfusion h

/-- C6 witness: a fully successful batch ends with zero open figures. -/
theorem figures_closed_iff_success_witness :
    (tsGraphsInit okPlotOracle cols4 plotStart).2.openFigures = 0 :=
  (figures_closed_iff_success okPlotOracle cols4 plotStart).mpr (by rfl)

/-- C7: the sample view is the last 14 rows of the table (all rows, without
error, when there are fewer than 14), and each per-column total is the sum
of that column over the sample rows rounded to 2 decimals. -/
theorem sample_view_spec (df : DataFrame) :
    (14 ≤ df.index.length →
      (dfTail 14 df).index.length = 14 ∧
      (dfTail 14 df).index <:+ df.index ∧
      totalsOf (dfTail 14 df) = (dfTail 14 df).cols.map colSumRounded) ∧
    (df.index.length < 14 → dfTail 14 df = df) := by
  constructor
  · intro h14
    refine ⟨?_, ?_, ?_⟩
    · simp only [dfTail, List.length_drop]
      omega
    · exact List.drop_suffix _ _
    · rfl
  · intro hlt
    have h0 : df.index.length - 14 = 0 := by omega
    unfold dfTail
    rw [h0]
    simp

/-- C7 witness: a concrete 14-row table. -/
theorem sample_view_spec_witness :
    (dfTail 14 wideDf).index.length = 14 ∧
    (dfTail 14 wideDf).index <:+ wideDf.index ∧
    totalsOf (dfTail 14 wideDf) = (dfTail 14 wideDf).cols.map colSumRounded :=
  (sample_view_spec wideDf).1 (by decide)

/-- C8: a successful diagnostic batch over a table whose columns contain
'Actual Data' exactly once records exactly 3 + (columns - 1) artifacts, in
the order ACF/PACF, line plot, one model-fit overlay per non-'Actual Data'
column in column order, seasonal decomposition. -/
theorem diagnostic_batch_completeness (o : PlotOracle) (cols : List String)
    (st : PlotState) (hok : exOk (tsGraphsInit o cols st).1 = true)
    (hone : cols.count "Actual Data" = 1) :
    ∃ arts, (tsGraphsInit o cols st).1 = .ok arts ∧
      (tsGraphsInit o cols st).2.artifacts
        = st.artifacts ++ [arts.acf_pacf] ++ [arts.lineplot]
            ++ arts.modelfit ++ [arts.seasonal_decomposition] ∧
      arts.modelfit.length + 1 = cols.length ∧
      ([arts.acf_pacf] ++ [arts.lineplot] ++ arts.modelfit
          ++ [arts.seasonal_decomposition]).length = 3 + (cols.length - 1) := by
  cases hres : tsGraphsInit o cols st with
  | mk p s =>
    rw [hres] at hok
    unfold tsGraphsInit at hres
    split at hres
    · rename_i e st1 h1
      obtain ⟨hp, _⟩ := Prod.mk.injEq .. |>.mp hres
      rw [← hp] at hok
      exact absurd hok (by simp [exOk])
    · rename_i acf st1 h1
      split at hres
      · rename_i e st2 h2
        obtain ⟨hp, _⟩ := Prod.mk.injEq .. |>.mp hres
        rw [← hp] at hok
        exact absurd hok (by simp [exOk])
      · rename_i line st2 h2
        split at hres
        · rename_i e st3 h3
          obtain ⟨hp, _⟩ := Prod.mk.injEq .. |>.mp hres
          rw [← hp] at hok
          exact absurd hok (by simp [exOk])
        · rename_i fits st3 h3
          split at hres
          · rename_i e st4 h4
            obtain ⟨hp, _⟩ := Prod.mk.injEq .. |>.mp hres
            rw [← hp] at hok
            exact absurd hok (by simp [exOk])
          · rename_i sd st4 h4
            obtain ⟨hp, hs⟩ := Prod.mk.injEq .. |>.mp hres
            obtain ⟨_, _, ha1⟩ := plot_acf_pacf_ok o st acf st1 h1
            obtain ⟨_, _, ha2⟩ := plot_line_ok o st1 line st2 h2
            obtain ⟨_, ha3, hlen⟩ := plotModelsGo_ok o _ _ _ _ h3
            obtain ⟨_, _, ha4⟩ := plot_seanonal_ok o st3 sd st4 h4
            have hflen := filter_ne_length "Actual Data" cols hone
            refine ⟨{ acf_pacf := acf, lineplot := line, modelfit := fits,
                      seasonal_decomposition := sd }, ?_, ?_, ?_, ?_⟩
            · rw [← hp]
            · rw [← hs]
              simp only [terminate]
              rw [ha4, ha3, ha2, ha1]
            · show fits.length + 1 = cols.length
              omega
            · show ([acf] ++ [line] ++ fits ++ [sd]).length = 3 + (cols.length - 1)
              simp only [List.length_append, List.length_cons, List.length_nil]
              omega

/-- C8 witness: the four-column table with an all-successful batch. -/
theorem diagnostic_batch_completeness_witness :
    cols4.count "Actual Data" = 1 ∧
    ∃ arts, (tsGraphsInit okPlotOracle cols4 plotStart).1 = .ok arts ∧
      (tsGraphsInit okPlotOracle cols4 plotStart).2.artifacts
        = plotStart.artifacts ++ [arts.acf_pacf] ++ [arts.lineplot]
            ++ arts.modelfit ++ [arts.seasonal_decomposition] ∧
      arts.modelfit.length + 1 = cols4.length ∧
      ([arts.acf_pacf] ++ [arts.lineplot] ++ arts.modelfit
          ++ [arts.seasonal_decomposition]).length = 3 + (cols4.length - 1) :=
  ⟨by decide, diagnostic_batch_completeness okPlotOracle cols4 plotStart
    (by rfl) (by decide)⟩

/-- C9: rounding the prediction table to 2 decimals is idempotent — every
already-rounded cell is left unchanged by a second `round(2)`. -/
theorem rounding_idempotent (df : DataFrame) :
    roundFrame (roundFrame df) = roundFrame df := by
  have hcomp : roundVal ∘ roundVal = roundVal :=
    funext fun v => by simp [Function.comp, roundVal_idem]
  unfold roundFrame
  simp only [DataFrame.mk.injEq, true_and, List.map_map]
  apply List.map_congr_left
  intro c _
  simp [Function.comp, List.map_map, hcomp]

/-- C10: the fitting path reads no request-varying state — two requests on
the same series with different clocks produce identical results tables,
sample views and totals (only the graph artifact names can differ). -/
theorem fit_deterministic_across_requests (o : StatOracles) (po : PlotOracle)
    (c1 c2 : ℕ) (data : Series) :
    stripGraphs (processRequest o po c1 data)
      = stripGraphs (processRequest o po c2 data) := by
  unfold processRequest
  cases hres : tsPredictionsResults o data with
  | error e => rfl
  | ok results =>
    cases h1 : tsGraphsInit po (results.cols.map Prod.fst)
        { openFigures := 0, clock := c1, artifacts := [] } with
    | mk p1 s1 =>
      cases h2 : tsGraphsInit po (results.cols.map Prod.fst)
          { openFigures := 0, clock := c2, artifacts := [] } with
      | mk p2 s2 =>
        have e1 := (tsGraphsInit_cases po _ _ p1 s1 h1).1
        have e2 := (tsGraphsInit_cases po _ _ p2 s2 h2).1
        have he : exUnit p1 = exUnit p2 := by rw [e1, e2]
        dsimp only
        rw [h1, h2]
        cases p1 with
        | ok g1 =>
          cases p2 with
          | ok g2 => simp [stripGraphs]
          | error e2' => exact absurd he (by simp [exUnit])
        | error e1' =>
          cases p2 with
          | ok g2 => exact absurd he (by simp [exUnit])
          | error e2' =>
            have heq : e1' = e2' := Except.error.inj he
            subst heq
            simp [stripGraphs]

end TSApp
